import Mathlib

/-
Shallow embedding of src/adm_index_exporter.py (an automated crawl-and-export
script for a three-level State -> County -> Grid selection hierarchy with a
per-leaf CSV export, a durable completion ledger, and a resumable main loop).

Modelling conventions:
- Python exceptions are modelled by the structure PyExc carrying the exception
  class name and its message; raising is modelled with Except.error.
- The filesystem ledger file is modelled as an optional list of CSV rows
  (none when the file does not exist); the csv writer/reader round trip of a
  single-field row is taken as lossless.
- The download directory is named by the string constant DOWNLOAD_DIR; a file
  path is a DlPath (directory, file name) pair.
- Polling for the downloaded file is modelled by a trace exf : Nat -> Bool
  giving the result of the i-th src.exists() call made by the code.
- The shared stateful browser form is modelled by FormState; each select
  action the code performs is recorded in an explicit action list, so that
  which controls are (and are not) re-selected is observable.
- The enumeration trace is the tree of dropdown option values the remote UI
  exposes: for each top-level option, for each second-level option, either the
  list of raw grid option values or a Session Driver exception (the code has
  no try/except in discover_all_grids, so the embedding propagates errors).
- The orchestrator main loop is modelled with a per-leaf export oracle
  ex : String -> Except PyExc DlPath.  In main the discovered grid list is
  deduplicated, so each identifier is exported at most once per run and an
  arbitrary function of the identifier captures every possible sequence of
  per-leaf outcomes of the stateful driver.
-/

namespace ADMConvert

/-- A Python exception, as a (class name, message) pair. -/
structure PyExc where
  cls : String
  msg : String
deriving DecidableEq

/-- DOWNLOAD_DIR = Path("data/PRF_Historical").resolve() ; we keep the
relative spelling since only the identity of the directory matters. -/
def DOWNLOAD_DIR : String := "data/PRF_Historical"

/-- START_YEAR = 1940 -/
def START_YEAR : Nat := 1940

/-- END_YEAR = 2025 -/
def END_YEAR : Nat := 2025

/-- A local file path: the containing directory and the file name. -/
structure DlPath where
  dir : String
  name : String
deriving DecidableEq

/-- get_completed(): read the ledger CSV into a set; when the file does not
exist, return the empty set; for each nonempty row add row[0]. -/
def get_completed : Option (List (List String)) → Finset String
  | none => ∅
  | some rows =>
      rows.foldl
        (fun done row =>
          match row with
          | [] => done
          | x :: _ => insert x done) ∅

/-- mark_completed(grid_id): append one single-field row to the ledger file
(opening with mode "a" creates the file when it is missing). -/
def mark_completed (file : Option (List (List String))) (grid_id : String) :
    List (List String) :=
  file.getD [] ++ [[grid_id]]

/-- The number of src.exists() calls made by the retry loop of
rename_latest_download: the loop polls at call indices 0, 1, ... and breaks
on the first call returning true, making at most `retries` calls. -/
def pollCalls (exf : Nat → Bool) : Nat → Nat → Nat
  | 0, calls => calls
  | Nat.succ r, calls => if exf calls then calls + 1 else pollCalls exf r (calls + 1)

/-- rename_latest_download(tmp_name, final_name, retries): poll for the
fixed-name file; after the loop the code checks existence once more and
raises RuntimeError when the file is still absent; otherwise it renames the
file to final_name (when given) inside DOWNLOAD_DIR and returns that path. -/
def rename_latest_download (exf : Nat → Bool) (tmp_name : String)
    (final_name : Option String) (retries : Nat) : Except PyExc DlPath :=
  let calls := pollCalls exf retries 0
  if !(exf calls) then
    Except.error ⟨"RuntimeError", "Export did not produce the expected CSV file."⟩
  else
    match final_name with
    | some fn => Except.ok ⟨DOWNLOAD_DIR, fn⟩
    | none => Except.ok ⟨DOWNLOAD_DIR, tmp_name⟩

/-- The dropdown controls of the shared Historical Indexes form. -/
inductive Control
  | state
  | county
  | grid
  | startYear
  | endYear
deriving DecidableEq

/-- The currently selected value of each control of the shared form; a
selection persists until some call overwrites it. -/
structure FormState where
  state : Option String
  county : Option String
  grid : Option String
  startYear : Option String
  endYear : Option String
deriving DecidableEq

/-- The environment one export invocation runs against: the visible texts of
the grid dropdown and of the year dropdowns, whether the export button can be
located, and the existence trace of the fixed-name downloaded file. -/
structure ExportEnv where
  gridTexts : List String
  yearTexts : List String
  exportBtnPresent : Bool
  fileExists : Nat → Bool

/-- Select.select_by_visible_text: succeeds iff some option shows the text,
else raises selenium's NoSuchElementException. -/
def select_by_visible_text (opts : List String) (t : String) : Except PyExc Unit :=
  if t ∈ opts then Except.ok ()
  else Except.error ⟨"NoSuchElementException", "Could not locate element with visible text: " ++ t⟩

deriving instance DecidableEq for Except

/-- Outcome of one export_grid_history call: the final form state, the list
of select actions performed (control, value), and the returned path or the
raised exception. -/
structure ExportOutcome where
  form : FormState
  selects : List (Control × String)
  result : Except PyExc DlPath
deriving DecidableEq

/-- set_years(start_year, end_year): ensure_tab (a click, no selection), then
select the start year and the end year by visible text.  Returns the updated
form, the select actions performed, and the exception raised, if any. -/
def set_years (env : ExportEnv) (form : FormState) (start_year end_year : Nat) :
    FormState × List (Control × String) × Option PyExc :=
  match select_by_visible_text env.yearTexts (toString start_year) with
  | Except.error e => (form, [], some e)
  | Except.ok _ =>
    let form1 := { form with startYear := some (toString start_year) }
    match select_by_visible_text env.yearTexts (toString end_year) with
    | Except.error e => (form1, [(Control.startYear, toString start_year)], some e)
    | Except.ok _ =>
      ({ form1 with endYear := some (toString end_year) },
       [(Control.startYear, toString start_year), (Control.endYear, toString end_year)],
       none)

/-- export_grid_history(d, grid_id, start_year, end_year): ensure_tab, wait
for the State, County and Grid select elements (presence only, not a select
action — modelled as always present), select the grid by visible text, set the year
range, locate and click the export button (RuntimeError when absent), then
poll for and rename the downloaded file to grid_{id}_{y0}_{y1}.csv. -/
def export_grid_history (env : ExportEnv) (form : FormState) (grid_id : String)
    (start_year end_year : Nat) : ExportOutcome :=
  match select_by_visible_text env.gridTexts grid_id with
  | Except.error e => { form := form, selects := [], result := Except.error e }
  | Except.ok _ =>
    let form1 := { form with grid := some grid_id }
    let sel1 : List (Control × String) := [(Control.grid, grid_id)]
    match set_years env form1 start_year end_year with
    | (form2, sel2, some e) =>
        { form := form2, selects := sel1 ++ sel2, result := Except.error e }
    | (form2, sel2, none) =>
        if env.exportBtnPresent then
          { form := form2, selects := sel1 ++ sel2,
            result := rename_latest_download env.fileExists "HistoricalIndexes.csv"
              (some ("grid_" ++ grid_id ++ "_" ++ toString start_year ++ "_" ++
                toString end_year ++ ".csv")) 60 }
        else
          { form := form2, selects := sel1 ++ sel2,
            result := Except.error ⟨"RuntimeError", "Export to CSV button not found."⟩ }

/-- Python str.strip(): drop whitespace from both ends of the string. -/
def pyStrip (s : String) : String :=
  ⟨(((s.data.dropWhile Char.isWhitespace).reverse).dropWhile Char.isWhitespace).reverse⟩

/-- The leaf values one county branch contributes: get_select_options keeps
options whose stripped value is nonempty, and the loop appends the stripped
value (strip-then-test and test-then-strip coincide since strip is
idempotent). -/
def branchLeaves (gs : List String) : List String :=
  (gs.map pyStrip).filter (fun s => decide (s ≠ ""))

/-- The reads of the grid dropdown across the county options of one state:
the code has no try/except, so the first Session Driver exception
propagates; otherwise the contributed leaf values are concatenated in
option order. -/
def branch_reads : List (Except PyExc (List String)) → Except PyExc (List String)
  | [] => Except.ok []
  | c :: cs =>
    match c with
    | Except.error e => Except.error e
    | Except.ok gs =>
      match branch_reads cs with
      | Except.error e => Except.error e
      | Except.ok rest => Except.ok (branchLeaves gs ++ rest)

/-- The full state-by-county traversal of discover_all_grids before
deduplication: concatenation over states, first exception propagating. -/
def all_reads : List (List (Except PyExc (List String))) → Except PyExc (List String)
  | [] => Except.ok []
  | st :: sts =>
    match branch_reads st with
    | Except.error e => Except.error e
    | Except.ok gs =>
      match all_reads sts with
      | Except.error e => Except.error e
      | Except.ok rest => Except.ok (gs ++ rest)

/-- The seen/ordered deduplication loop at the end of discover_all_grids:
skip a value already seen, else record it and append it to the output. -/
def dedupAux (seen : List String) : List String → List String
  | [] => []
  | g :: gs => if g ∈ seen then dedupAux seen gs else g :: dedupAux (g :: seen) gs

/-- discover_all_grids(d): walk the dependent tree collecting raw grid
values, then de-duplicate while preserving order. -/
def discover_all_grids (trace : List (List (Except PyExc (List String)))) :
    Except PyExc (List String) :=
  match all_reads trace with
  | Except.error e => Except.error e
  | Except.ok all_grids => Except.ok (dedupAux [] all_grids)

/-- A discovery trace in which no branch read raises. -/
def pureTrace (t : List (List (List String))) :
    List (List (Except PyExc (List String))) :=
  t.map (fun st => st.map Except.ok)

/-- The raw (pre-deduplication) leaf list collected from an exception-free
discovery trace, in traversal order. -/
def rawLeaves : List (List (List String)) → List String
  | [] => []
  | st :: sts => (st.map branchLeaves).flatten ++ rawLeaves sts

/-- The leaf list discover_all_grids returns on an exception-free trace. -/
def discoveredLeaves (t : List (List (List String))) : List String :=
  dedupAux [] (rawLeaves t)

/-- Specification-level description of first-seen deduplication: keep the
head and recursively drop its later duplicates, so each value appears once,
at the position of its first occurrence. -/
def firstSeenDedup : List String → List String
  | [] => []
  | g :: gs => g :: firstSeenDedup (gs.filter (fun x => decide (x ≠ g)))
termination_by l => l.length
decreasing_by
  simp only [List.length_cons]
  exact Nat.lt_succ_of_le (List.length_filter_le _ _)

/-- The first Session Driver exception among the county reads of one state,
in option order. -/
def firstErrIn : List (Except PyExc (List String)) → Option PyExc
  | [] => none
  | Except.error e :: _ => some e
  | Except.ok _ :: cs => firstErrIn cs

/-- The first Session Driver exception of a whole discovery trace, in
traversal order. -/
def firstDiscoveryError : List (List (Except PyExc (List String))) → Option PyExc
  | [] => none
  | st :: sts =>
    match firstErrIn st with
    | some e => some e
    | none => firstDiscoveryError sts

/-- The leaf values contributed by the non-raising reads of one state. -/
def okLeavesIn : List (Except PyExc (List String)) → List String
  | [] => []
  | Except.error _ :: cs => okLeavesIn cs
  | Except.ok gs :: cs => branchLeaves gs ++ okLeavesIn cs

/-- The leaf values contributed by the non-raising reads of a trace. -/
def okLeaves : List (List (Except PyExc (List String))) → List String
  | [] => []
  | st :: sts => okLeavesIn st ++ okLeaves sts

/-- True on Except.ok, false on Except.error. -/
def exOk : Except PyExc DlPath → Bool
  | Except.ok _ => true
  | Except.error _ => false

/-- The observable effects accumulated by the per-leaf loop of main():
lines printed, grids for which export_grid_history was invoked, and grids
appended to the ledger via mark_completed, each in order. -/
structure RunState where
  printed : List String
  attempted : List String
  ledgerAppends : List String
deriving DecidableEq

/-- The {attempted, skipped, succeeded, failed} record the specification
says run() returns; used only as the type of the modelled return value of
main(). -/
structure RunSummary where
  attempted : Nat
  skipped : Nat
  succeeded : Nat
  failed : Nat
deriving DecidableEq

/-- What one run of main() produces: the printed lines, the export
invocations, the ledger appends, and the Python return value of main —
the function body has no return statement, so it returns None, modelled
as (none : Option RunSummary). -/
structure MainResult where
  printed : List String
  attempted : List String
  ledgerAppends : List String
  pyReturn : Option RunSummary
deriving DecidableEq

/-- The printed line of main() for one attempted grid: the Saved line on
success, the warning line on any caught exception (str(e) of a selenium or
RuntimeError exception is modelled by its message). -/
def leafLine (ex : String → Except PyExc DlPath) (gid : String) : String :=
  match ex gid with
  | Except.ok p => "Saved " ++ p.name
  | Except.error e => "[WARN] Grid " ++ gid ++ " failed: " ++ e.msg

/-- The per-leaf loop of main(): skip grids already in the done set read at
startup; otherwise invoke the exporter; on success print the Saved line and
append to the ledger; on any exception print the warning line and continue
(the except block swallows the error). -/
def runLoop (ex : String → Except PyExc DlPath) (done : Finset String) :
    List String → RunState → RunState
  | [], s => s
  | gid :: rest, s =>
    if gid ∈ done then runLoop ex done rest s
    else
      match ex gid with
      | Except.ok path =>
          runLoop ex done rest
            { printed := s.printed ++ ["Saved " ++ path.name],
              attempted := s.attempted ++ [gid],
              ledgerAppends := s.ledgerAppends ++ [gid] }
      | Except.error e =>
          runLoop ex done rest
            { printed := s.printed ++ ["[WARN] Grid " ++ gid ++ " failed: " ++ e.msg],
              attempted := s.attempted ++ [gid],
              ledgerAppends := s.ledgerAppends }

/-- main(): read the done set, discover all grids (an exception there is not
caught and aborts the run, modelled by Except.error), print the discovery
count, then run the per-leaf loop; main falls off the end of its body, so
its Python return value is None. -/
def mainE (ledgerFile : Option (List (List String)))
    (trace : List (List (Except PyExc (List String))))
    (ex : String → Except PyExc DlPath) : Except PyExc MainResult :=
  let done := get_completed ledgerFile
  match discover_all_grids trace with
  | Except.error e => Except.error e
  | Except.ok grids =>
    let s := runLoop ex done grids
      { printed := ["Discovered " ++ toString grids.length ++ " unique Grid IDs."],
        attempted := [], ledgerAppends := [] }
    Except.ok
      { printed := s.printed, attempted := s.attempted,
        ledgerAppends := s.ledgerAppends, pyReturn := none }

/-- A concrete export environment in which every step succeeds for grid
value 7 and years 1940 and 2025, and where the downloaded file exists from
the first poll on. -/
def envOK : ExportEnv :=
  { gridTexts := ["7"], yearTexts := ["1940", "2025"],
    exportBtnPresent := true, fileExists := fun _ => true }

/-- A form still holding stale parent selections left over from an earlier
iteration of the shared session. -/
def formStale : FormState :=
  { state := some "OLD_STATE", county := some "OLD_COUNTY",
    grid := none, startYear := none, endYear := none }

/-- A concrete per-leaf export oracle: grid G1 raises the timeout
RuntimeError, every other grid succeeds. -/
def eW : PyExc := ⟨"RuntimeError", "Export did not produce the expected CSV file."⟩

/-- See eW: G1 fails, all other grids export successfully. -/
def exW : String → Except PyExc DlPath := fun g =>
  if g = "G1" then Except.error eW
  else Except.ok ⟨DOWNLOAD_DIR, "grid_" ++ g ++ "_1940_2025.csv"⟩

/-- A concrete Session Driver exception for a branch whose dependent
dropdown never becomes usable during enumeration. -/
def sessionErrW : PyExc := ⟨"WebDriverException", "dependent dropdown never populated"⟩

/-- Membership in the deduplication loop output: a value is kept iff it
occurs in the input and is not among the already-seen values. -/
lemma mem_dedupAux (x : String) :
    ∀ (l seen : List String), x ∈ dedupAux seen l ↔ x ∈ l ∧ x ∉ seen := by
  intro l
  induction l with
  | nil => intro seen; simp [dedupAux]
  | cons g gs ih =>
    intro seen
    by_cases hg : g ∈ seen
    · rw [dedupAux, if_pos hg, ih]
      constructor
      · rintro ⟨h1, h2⟩
        exact ⟨List.mem_cons_of_mem g h1, h2⟩
      · rintro ⟨h1, h2⟩
        rcases List.mem_cons.mp h1 with h1 | h1
        · exact absurd (h1 ▸ hg) h2
        · exact ⟨h1, h2⟩
    · rw [dedupAux, if_neg hg]
      by_cases hx : x = g
      · subst hx
        simp [hg]
      · simp only [List.mem_cons, hx, false_or, ih, List.mem_cons, not_or]

/-- The deduplication loop output has no duplicates. -/
lemma nodup_dedupAux : ∀ (l seen : List String), (dedupAux seen l).Nodup := by
  intro l
  induction l with
  | nil => intro seen; simp [dedupAux]
  | cons g gs ih =>
    intro seen
    by_cases hg : g ∈ seen
    · rw [dedupAux, if_pos hg]
      exact ih seen
    · rw [dedupAux, if_neg hg]
      refine List.nodup_cons.mpr ⟨?_, ih (g :: seen)⟩
      intro hmem
      exact ((mem_dedupAux g gs (g :: seen)).mp hmem).2 (List.mem_cons_self g seen)

/-- The deduplication loop keeps exactly the first occurrence of each value:
it agrees with the specification-level firstSeenDedup after the already-seen
values are removed. -/
lemma dedupAux_eq_firstSeenDedup :
    ∀ (l seen : List String),
      dedupAux seen l = firstSeenDedup (l.filter (fun x => decide (x ∉ seen))) := by
  intro l
  induction l with
  | nil => intro seen; simp [dedupAux, firstSeenDedup]
  | cons g gs ih =>
    intro seen
    by_cases hg : g ∈ seen
    · rw [dedupAux, if_pos hg, ih, List.filter_cons, if_neg (by simp [hg])]
    · rw [dedupAux, if_neg hg, List.filter_cons, if_pos (by simp [hg])]
      simp only [firstSeenDedup]
      congr 1
      rw [ih, List.filter_filter]
      congr 1
      apply List.filter_congr
      intro a _
      by_cases h1 : a = g <;> by_cases h2 : a ∈ seen <;> simp [h1, h2]

/-- On a trace where no read raises, one state branch contributes the
concatenation of its county branches. -/
lemma branch_reads_pure (st : List (List String)) :
    branch_reads (st.map Except.ok) = Except.ok (st.map branchLeaves).flatten := by
  induction st with
  | nil => rfl
  | cons c cs ih => simp [branch_reads, ih]

/-- On a trace where no read raises, the full traversal collects rawLeaves. -/
lemma all_reads_pure (t : List (List (List String))) :
    all_reads (pureTrace t) = Except.ok (rawLeaves t) := by
  induction t with
  | nil => rfl
  | cons st sts ih =>
    simp only [pureTrace] at ih
    simp [pureTrace, all_reads, branch_reads_pure, ih, rawLeaves]

/-- On a trace where no read raises, discovery returns discoveredLeaves. -/
lemma discover_pure (t : List (List (List String))) :
    discover_all_grids (pureTrace t) = Except.ok (discoveredLeaves t) := by
  rw [discover_all_grids, all_reads_pure]
  rfl

/-- One state branch either propagates its first exception or contributes
its non-raising reads. -/
lemma branch_reads_eq (st : List (Except PyExc (List String))) :
    branch_reads st =
      (match firstErrIn st with
       | some e => Except.error e
       | none => Except.ok (okLeavesIn st)) := by
  induction st with
  | nil => rfl
  | cons c cs ih =>
    cases c with
    | error e => rfl
    | ok gs =>
      rw [branch_reads, ih]
      cases h : firstErrIn cs <;> simp [firstErrIn, okLeavesIn, h]

/-- The full traversal either propagates the first exception of the trace or
collects the non-raising reads. -/
lemma all_reads_eq (trace : List (List (Except PyExc (List String)))) :
    all_reads trace =
      (match firstDiscoveryError trace with
       | some e => Except.error e
       | none => Except.ok (okLeaves trace)) := by
  induction trace with
  | nil => rfl
  | cons st sts ih =>
    rw [all_reads, branch_reads_eq, ih]
    cases h1 : firstErrIn st with
    | some e => simp [firstDiscoveryError, h1]
    | none =>
      cases h2 : firstDiscoveryError sts <;> simp [firstDiscoveryError, okLeaves, h1, h2]

/-- Full characterization of the per-leaf loop: it prints one line per
not-yet-done grid, invokes the exporter for exactly the not-yet-done grids in
order, and appends to the ledger exactly the not-yet-done grids whose export
returned a path. -/
lemma runLoop_eq (ex : String → Except PyExc DlPath) (done : Finset String) :
    ∀ (grids : List String) (s : RunState),
      runLoop ex done grids s =
        { printed := s.printed ++ (grids.filter (fun g => decide (g ∉ done))).map (leafLine ex),
          attempted := s.attempted ++ grids.filter (fun g => decide (g ∉ done)),
          ledgerAppends := s.ledgerAppends ++
            ((grids.filter (fun g => decide (g ∉ done))).filter (fun g => exOk (ex g))) } := by
  intro grids
  induction grids with
  | nil => intro s; simp [runLoop]
  | cons g gs ih =>
    intro s
    by_cases hg : g ∈ done
    · rw [runLoop, if_pos hg, ih, List.filter_cons, if_neg (by simp [hg])]
    · rw [runLoop, if_neg hg]
      cases hex : ex g with
      | ok p =>
        dsimp only
        rw [ih, List.filter_cons, if_pos (by simp [hg]), List.filter_cons]
        rw [if_pos (by simp [exOk, hex])]
        simp [leafLine, hex]
      | error e =>
        dsimp only
        rw [ih, List.filter_cons, if_pos (by simp [hg]), List.filter_cons]
        rw [if_neg (by simp [exOk, hex])]
        simp [leafLine, hex]

/-- Full characterization of main() on an exception-free discovery trace:
it never propagates an exception (the run always completes), prints the
discovery count followed by one line per attempted grid, attempts exactly
the discovered grids absent from the startup done set, appends to the
ledger exactly the attempted grids whose export succeeded, and returns
None. -/
lemma mainE_pure (lf : Option (List (List String))) (t : List (List (List String)))
    (ex : String → Except PyExc DlPath) :
    mainE lf (pureTrace t) ex =
      Except.ok
        { printed :=
            ("Discovered " ++ toString (discoveredLeaves t).length ++ " unique Grid IDs.") ::
              ((discoveredLeaves t).filter
                (fun g => decide (g ∉ get_completed lf))).map (leafLine ex),
          attempted := (discoveredLeaves t).filter (fun g => decide (g ∉ get_completed lf)),
          ledgerAppends :=
            (((discoveredLeaves t).filter
              (fun g => decide (g ∉ get_completed lf))).filter (fun g => exOk (ex g))),
          pyReturn := none } := by
  rw [mainE, discover_pure]
  simp [runLoop_eq]

/-- When every poll reports the file absent, the retry loop makes exactly
`retries` calls. -/
lemma pollCalls_all_false (exf : Nat → Bool) :
    ∀ (r c : Nat), (∀ i, c ≤ i → i < c + r → exf i = false) →
      pollCalls exf r c = c + r := by
  intro r
  induction r with
  | zero => intro c _; rfl
  | succ n ih =>
    intro c h
    rw [pollCalls, h c (Nat.le_refl c) (by omega), ih (c + 1) (fun i h1 h2 => h i (by omega) (by omega))]
    simp
    omega

/-- set_years touches only the year controls: the State, County and Grid
selections survive it, and every select action it performs targets a year
control. -/
lemma set_years_spec (env : ExportEnv) (form : FormState) (y0 y1 : Nat) :
    (set_years env form y0 y1).1.state = form.state ∧
    (set_years env form y0 y1).1.county = form.county ∧
    ∀ cv ∈ (set_years env form y0 y1).2.1,
      cv.1 = Control.startYear ∨ cv.1 = Control.endYear := by
  unfold set_years
  cases h0 : select_by_visible_text env.yearTexts (toString y0) with
  | error e => simp
  | ok u =>
    cases h1 : select_by_visible_text env.yearTexts (toString y1) with
    | error e => simp
    | ok v => simp

/-- A successful rename names the artifact final_name inside DOWNLOAD_DIR. -/
lemma rename_ok_name (exf : Nat → Bool) (tmp fn : String) (retries : Nat) (p : DlPath)
    (h : rename_latest_download exf tmp (some fn) retries = Except.ok p) :
    p = ⟨DOWNLOAD_DIR, fn⟩ := by
  simp only [rename_latest_download] at h
  split at h
  · simp at h
  · simp only [Except.ok.injEq] at h
    exact h.symm

/-- C1 (amended): an invocation of export_grid_history re-selects only the
leaf-level Grid control (together with the year controls); the State and
County controls are waited for but never re-selected, so their selections in
the shared form are left exactly as the previous interaction set them, and
when the call succeeds the Grid select action did occur. -/
theorem export_reasserts_only_leaf (env : ExportEnv) (form : FormState)
    (gid : String) (y0 y1 : Nat) :
    (export_grid_history env form gid y0 y1).form.state = form.state ∧
    (export_grid_history env form gid y0 y1).form.county = form.county ∧
    Control.state ∉ ((export_grid_history env form gid y0 y1).selects.map Prod.fst) ∧
    Control.county ∉ ((export_grid_history env form gid y0 y1).selects.map Prod.fst) ∧
    (∀ p, (export_grid_history env form gid y0 y1).result = Except.ok p →
      (Control.grid, gid) ∈ (export_grid_history env form gid y0 y1).selects) := by
  have hspec := set_years_spec env { form with grid := some gid } y0 y1
  unfold export_grid_history
  cases hsel : select_by_visible_text env.gridTexts gid with
  | error e => simp [hsel]
  | ok u =>
    simp only [hsel]
    rcases hsy : set_years env { form with grid := some gid } y0 y1 with ⟨form2, sel2, oe⟩
    rw [hsy] at hspec
    obtain ⟨hst, hco, hsels⟩ := hspec
    have hnostate : Control.state ∉ List.map Prod.fst ((Control.grid, gid) :: sel2) := by
      intro hmem
      rcases List.mem_map.mp hmem with ⟨cv, hcv, hfst⟩
      rcases List.mem_cons.mp hcv with hcv1 | hcv1
      · rw [hcv1] at hfst
        exact Control.noConfusion hfst
      · rcases hsels cv hcv1 with hy | hy <;> rw [hy] at hfst <;> exact Control.noConfusion hfst
    have hnocounty : Control.county ∉ List.map Prod.fst ((Control.grid, gid) :: sel2) := by
      intro hmem
      rcases List.mem_map.mp hmem with ⟨cv, hcv, hfst⟩
      rcases List.mem_cons.mp hcv with hcv1 | hcv1
      · rw [hcv1] at hfst
        exact Control.noConfusion hfst
      · rcases hsels cv hcv1 with hy | hy <;> rw [hy] at hfst <;> exact Control.noConfusion hfst
    cases oe with
    | some e =>
      simp only [hsy]
      refine ⟨hst, hco, hnostate, hnocounty, ?_⟩
      intro p hp
      exact Except.noConfusion hp
    | none =>
      simp only [hsy]
      by_cases hbtn : env.exportBtnPresent = true
      · rw [if_pos hbtn]
        refine ⟨hst, hco, hnostate, hnocounty, ?_⟩
        intro p _
        exact List.mem_append_left sel2 (List.mem_cons_self _ _)
      · rw [if_neg hbtn]
        refine ⟨hst, hco, hnostate, hnocounty, ?_⟩
        intro p hp
        exact Except.noConfusion hp

/-- C1 witness: a concrete successful invocation, starting from a form with
stale parent selections, leaves the stale State selection in place while the
Grid control is selected. -/
theorem export_reasserts_only_leaf_witness :
    (export_grid_history envOK formStale "7" 1940 2025).form.state = formStale.state ∧
    (Control.grid, "7") ∈ (export_grid_history envOK formStale "7" 1940 2025).selects := by
  have h := export_reasserts_only_leaf envOK formStale "7" 1940 2025
  exact ⟨h.1, h.2.2.2.2 ⟨DOWNLOAD_DIR, "grid_7_1940_2025.csv"⟩ (by decide)⟩

/-- C1 counterexample: a concrete successful export invocation performs
exactly the Grid, start-year and end-year select actions — no State (region)
or County (sub-region) re-selection — and the stale parent selections of the
shared form survive the call, refuting the claim that the full path context
is re-selected on every invocation. -/
theorem export_no_parent_reassert_counterexample :
    exOk (export_grid_history envOK formStale "7" 1940 2025).result = true ∧
    (export_grid_history envOK formStale "7" 1940 2025).selects.map Prod.fst =
      [Control.grid, Control.startYear, Control.endYear] ∧
    Control.state ∉ ((export_grid_history envOK formStale "7" 1940 2025).selects.map Prod.fst) ∧
    Control.county ∉ ((export_grid_history envOK formStale "7" 1940 2025).selects.map Prod.fst) ∧
    (export_grid_history envOK formStale "7" 1940 2025).form.state = some "OLD_STATE" ∧
    (export_grid_history envOK formStale "7" 1940 2025).form.county = some "OLD_COUNTY" := by
  exact ⟨by decide, by decide, by decide, by decide, by decide, by decide⟩

/-- C2 (amended): a successful export always yields the artifact path
DOWNLOAD_DIR/grid_{id}_{y0}_{y1}.csv — deterministic in the identifier and
year range and independent of the environment, the prior form state and any
prior run history. -/
theorem export_artifact_path_deterministic (env : ExportEnv) (form : FormState)
    (gid : String) (y0 y1 : Nat) (p : DlPath)
    (h : (export_grid_history env form gid y0 y1).result = Except.ok p) :
    p = ⟨DOWNLOAD_DIR,
          "grid_" ++ gid ++ "_" ++ toString y0 ++ "_" ++ toString y1 ++ ".csv"⟩ := by
  unfold export_grid_history at h
  cases hsel : select_by_visible_text env.gridTexts gid with
  | error e =>
    simp only [hsel] at h
    exact absurd h (by simp)
  | ok u =>
    simp only [hsel] at h
    rcases hsy : set_years env { form with grid := some gid } y0 y1 with ⟨form2, sel2, oe⟩
    cases oe with
    | some e =>
      simp only [hsy] at h
      exact absurd h (by simp)
    | none =>
      simp only [hsy] at h
      by_cases hbtn : env.exportBtnPresent = true
      · rw [if_pos hbtn] at h
        exact rename_ok_name env.fileExists "HistoricalIndexes.csv"
          ("grid_" ++ gid ++ "_" ++ toString y0 ++ "_" ++ toString y1 ++ ".csv") 60 p h
      · rw [if_neg hbtn] at h
        exact absurd h (by simp)

/-- C2 witness: the concrete successful invocation for grid 7 over 1940-2025
yields exactly the grid_7_1940_2025.csv artifact path. -/
theorem export_artifact_path_deterministic_witness :
    (⟨DOWNLOAD_DIR, "grid_7_1940_2025.csv"⟩ : DlPath) =
      ⟨DOWNLOAD_DIR, "grid_" ++ "7" ++ "_" ++ toString 1940 ++ "_" ++ toString 2025 ++ ".csv"⟩ :=
  export_artifact_path_deterministic envOK formStale "7" 1940 2025
    ⟨DOWNLOAD_DIR, "grid_7_1940_2025.csv"⟩ (by decide)

/-- C2 counterexample: the artifact of a concrete successful export is named
grid_7_1940_2025.csv, not the leaf-7-1940-2025 path the claim states. -/
theorem export_artifact_name_counterexample :
    (export_grid_history envOK formStale "7" 1940 2025).result =
      Except.ok ⟨DOWNLOAD_DIR, "grid_7_1940_2025.csv"⟩ ∧
    ("grid_7_1940_2025.csv" : String) ≠ "leaf-7-1940-2025" := by
  exact ⟨by decide, by decide⟩

/-- C3 (amended): discover_all_grids has no branch-level isolation: the
first Session Driver exception raised while reading any branch propagates
and aborts the whole discovery (nothing is logged or skipped); only when no
branch raises does it return the deduplicated collection of all branch
leaves.  A branch that merely populates with zero options contributes no
leaves and enumeration continues. -/
theorem discover_aborts_on_branch_error (trace : List (List (Except PyExc (List String)))) :
    discover_all_grids trace =
      (match firstDiscoveryError trace with
       | some e => Except.error e
       | none => Except.ok (dedupAux [] (okLeaves trace))) := by
  rw [discover_all_grids, all_reads_eq]
  cases firstDiscoveryError trace <;> rfl

/-- C3 counterexample: a trace whose first state branch fails while a later
branch exposes leaf G2: discovery returns the branch error — it does not
skip the failing branch and continue to enumerate G2 — refuting the claim
that branch failures are isolated and remaining branches still enumerated
(the second conjunct shows the surviving branch alone would have yielded
G2). -/
theorem discover_branch_error_counterexample :
    discover_all_grids [[Except.error sessionErrW], [Except.ok ["G2"]]] =
      Except.error sessionErrW ∧
    discover_all_grids [[Except.ok ["G2"]]] = Except.ok ["G2"] := by
  exact ⟨by decide, by decide⟩

/-- C4 (confirmed): if the export of any one leaf raises any error, main
catches it at the loop boundary: the run still completes normally
(mainE returns Except.ok, never propagating a leaf-level exception), every
discovered not-yet-done leaf is attempted in discovery order — including
all leaves after the failing one — and the failing leaf is not appended to
the ledger. -/
theorem main_soft_fails_and_continues (lf : Option (List (List String)))
    (t : List (List (List String))) (ex : String → Except PyExc DlPath)
    (gid : String) (e : PyExc) (hgid : ex gid = Except.error e) :
    (mainE lf (pureTrace t) ex).map MainResult.attempted =
      Except.ok ((discoveredLeaves t).filter (fun g => decide (g ∉ get_completed lf))) ∧
    (∀ r, mainE lf (pureTrace t) ex = Except.ok r → gid ∉ r.ledgerAppends) := by
  refine ⟨?_, ?_⟩
  · rw [mainE_pure]
    rfl
  · intro r hr
    rw [mainE_pure] at hr
    injection hr with hr2
    intro hmem
    rw [← hr2] at hmem
    have hok := (List.mem_filter.mp hmem).2
    rw [hgid] at hok
    exact absurd hok (by simp [exOk])

/-- C4 witness: a concrete run in which G1 fails with the timeout error
still attempts both discovered grids. -/
theorem main_soft_fails_witness :
    (mainE none (pureTrace [[["G1", "G2"]]]) exW).map MainResult.attempted =
      Except.ok ["G1", "G2"] := by
  have h := main_soft_fails_and_continues none [[["G1", "G2"]]] exW "G1" eW (by decide)
  rw [h.1]
  decide

/-- C5 (confirmed): a run attempts export for exactly the discovered leaves
absent from the startup ledger set, in discovery order; a leaf in the set is
skipped without the exporter ever being consulted for it (the attempted list
records precisely the exporter invocations of the loop). -/
theorem main_attempts_exactly_pending (lf : Option (List (List String)))
    (t : List (List (List String))) (ex : String → Except PyExc DlPath) :
    (mainE lf (pureTrace t) ex).map MainResult.attempted =
      Except.ok ((discoveredLeaves t).filter (fun g => decide (g ∉ get_completed lf))) := by
  rw [mainE_pure]
  rfl

/-- C6 (confirmed): on any exception-free discovery trace, the output of
discover_all_grids is exactly the first-seen deduplication of the raw
collected leaf sequence: each leaf value appears exactly once (Nodup), a
value appears iff it occurred in the raw sequence, and values stand in the
order of their first occurrence (firstSeenDedup). -/
theorem discover_dedups_first_seen (t : List (List (List String))) :
    discover_all_grids (pureTrace t) = Except.ok (firstSeenDedup (rawLeaves t)) ∧
    (firstSeenDedup (rawLeaves t)).Nodup ∧
    ∀ x, x ∈ firstSeenDedup (rawLeaves t) ↔ x ∈ rawLeaves t := by
  have hfd : dedupAux [] (rawLeaves t) = firstSeenDedup (rawLeaves t) := by
    rw [dedupAux_eq_firstSeenDedup]
    congr 1
    simp
  refine ⟨?_, ?_, ?_⟩
  · rw [discover_pure, discoveredLeaves, hfd]
  · rw [← hfd]
    exact nodup_dedupAux _ _
  · intro x
    rw [← hfd]
    simpa using mem_dedupAux x (rawLeaves t) []

/-- C7 (confirmed): after mark_completed(id) has appended id to the durable
ledger file, a fresh read of that file via get_completed yields a set
containing id — the membership test of a fresh process returns true. -/
theorem mark_completed_persists (file : Option (List (List String))) (gid : String) :
    gid ∈ get_completed (some (mark_completed file gid)) := by
  simp only [get_completed, mark_completed, List.foldl_append, List.foldl_cons, List.foldl_nil]
  exact Finset.mem_insert_self gid _

/-- C8 (amended): after the export action, the code polls the fixed-name
file for a bounded number of intervals — only the results of existence
checks 0..retries matter — and when the file never appears within that
budget it raises RuntimeError("Export did not produce the expected CSV
file.") instead of waiting forever or returning a path.  The exception is
the generic RuntimeError class, not a dedicated ArtifactTimeoutError
type. -/
theorem rename_timeout_is_runtime_error (exf : Nat → Bool) (tmp fn : String)
    (retries : Nat) (h : ∀ i, i ≤ retries → exf i = false) :
    rename_latest_download exf tmp (some fn) retries =
      Except.error ⟨"RuntimeError", "Export did not produce the expected CSV file."⟩ := by
  have hcalls : pollCalls exf retries 0 = retries := by
    have hp := pollCalls_all_false exf retries 0 (fun i h1 h2 => h i (by omega))
    simpa using hp
  simp only [rename_latest_download]
  rw [hcalls, h retries (Nat.le_refl retries)]
  rfl

/-- C8 witness: with a trace on which the file never appears, the call with
the default 60 retries raises the RuntimeError. -/
theorem rename_timeout_witness :
    rename_latest_download (fun _ => false) "HistoricalIndexes.csv"
        (some "grid_1_1940_2025.csv") 60 =
      Except.error ⟨"RuntimeError", "Export did not produce the expected CSV file."⟩ :=
  rename_timeout_is_runtime_error (fun _ => false) "HistoricalIndexes.csv"
    "grid_1_1940_2025.csv" 60 (fun _ _ => rfl)

/-- C8 counterexample: when the file never appears the raised exception has
class RuntimeError, which is not an ArtifactTimeoutError — there is no
dedicated typed error distinguishing the timeout (the same RuntimeError
class is also used for the missing export button). -/
theorem rename_timeout_type_counterexample :
    rename_latest_download (fun _ => false) "HistoricalIndexes.csv"
        (some "grid_7_1940_2025.csv") 60 =
      Except.error ⟨"RuntimeError", "Export did not produce the expected CSV file."⟩ ∧
    ("RuntimeError" : String) ≠ "ArtifactTimeoutError" := by
  exact ⟨by decide, by decide⟩

/-- C9 (amended): main() computes and returns no
{attempted, skipped, succeeded, failed} summary: its Python return value is
None, and the only reporting of a run is the printed lines — the discovery
count header followed by one line per attempted leaf (Saved on success,
[WARN] on failure). -/
theorem main_prints_and_returns_none (lf : Option (List (List String)))
    (t : List (List (List String))) (ex : String → Except PyExc DlPath) :
    (mainE lf (pureTrace t) ex).map MainResult.pyReturn = Except.ok none ∧
    (mainE lf (pureTrace t) ex).map MainResult.printed =
      Except.ok
        (("Discovered " ++ toString (discoveredLeaves t).length ++ " unique Grid IDs.") ::
          ((discoveredLeaves t).filter
            (fun g => decide (g ∉ get_completed lf))).map (leafLine ex)) := by
  rw [mainE_pure]
  exact ⟨rfl, rfl⟩

/-- C9 counterexample: a concrete completed run (one leaf failing, one
succeeding) returns None — not a summary record of the four counts. -/
theorem main_returns_none_counterexample :
    (mainE none (pureTrace [[["G1", "G2"]]]) exW).map MainResult.pyReturn =
      Except.ok none := by
  decide

/-- C10 (confirmed): when the ledger file does not exist, get_completed
returns the empty set rather than failing, so a run over any discovery
trace attempts every discovered leaf. -/
theorem fresh_ledger_empty_attempts_all (t : List (List (List String)))
    (ex : String → Except PyExc DlPath) :
    get_completed none = (∅ : Finset String) ∧
    (mainE none (pureTrace t) ex).map MainResult.attempted =
      Except.ok (discoveredLeaves t) := by
  refine ⟨rfl, ?_⟩
  rw [mainE_pure]
  simp only [Except.map]
  congr 1
  apply List.filter_eq_self.mpr
  intro a _
  simp [get_completed]

end ADMConvert
